import Mathlib

/-!
Shallow embedding of the `fun` test-helper library (Go) and proofs about it.

The source file concatenates two historical versions of the package; the
second (documented) version is embedded here as the primary semantics, and
the first version's `Err` is embedded as `ErrV1` for the equivalence claim.

Modelling choices:
* `Val` models Go `interface{}` values as used by the library: the nil
  interface, ints, strings, and non-nil error values (identified by their
  message).  `reflect.DeepEqual` is modelled by decidable equality on `Val`,
  and the Go comparison `x == nil` by `x = Val.vnil`.
* A target function is a `GoFunc`: its declared return-type list (each type
  carrying whether it implements the `error` interface) and its call
  behaviour, which either returns a list of values or panics with a payload.
  `panic(nil)` is modelled as panicking with payload `Val.vnil`, matching
  the `recover` semantics the code is written against (`recover()` yields
  the payload, and `r != nil` is false for a nil payload).
* `FunTest` carries the fields of the Go struct plus two observables: a
  `failCount` counting the `t.Fail()` signals sent to the reporting sink,
  and a `calls` counter counting invocations of the target (`val.Call`).
* Methods mutate through a pointer in Go; here they are state transformers
  `FunTest → ... → FunTest`.
-/

namespace Fun

/-- A Go `interface{}` value as distinguished by the library. -/
inductive Val where
  | vnil : Val
  | vint : Int → Val
  | vstr : String → Val
  | verr : String → Val
deriving DecidableEq

/-- Outcome of invoking the target: a normal return or a panic payload. -/
inductive CallResult where
  | ret : List Val → CallResult
  | panic : Val → CallResult

/-- A Go type as the library sees it: a name and whether it implements the
`error` interface. -/
structure GoType where
  name : String
  implementsError : Bool
deriving DecidableEq

/-- Embeds `isError` (src/fun.go line 268): whether a type implements the
`error` interface. -/
def isError (t : GoType) : Bool := t.implementsError

/-- A target func: declared return types and call behaviour. -/
structure GoFunc where
  outTypes : List GoType
  call : List Val → CallResult

/-- The `interface{}` argument passed to `Test`: nil, a non-func value, or a
func together with its runtime fully-qualified name. -/
inductive FunValue where
  | nilVal : FunValue
  | nonFunc : Val → FunValue
  | func : GoFunc → String → FunValue

/-- Embeds the `FunTest` struct (src/fun.go lines 500-508).  `failCount`
counts signals to the reporting sink (`t.Fail()`), `calls` counts
invocations of the target. -/
structure FunTest where
  failCount : Nat
  valid : Bool
  errors : Bool
  name : String
  i : Nat
  fn : GoFunc
  calls : Nat

/-- Embeds the `Case` struct (src/fun.go lines 511-514); the pointer to the
owning `FunTest` is passed explicitly to the assertion functions. -/
structure Case where
  args : List Val

/-- One `t.Fail()` signal to the reporting sink. -/
def FunTest.fail (ft : FunTest) : FunTest := { ft with failCount := ft.failCount + 1 }

/-- One invocation of the target (`val.Call`). -/
def FunTest.bump (ft : FunTest) : FunTest := { ft with calls := ft.calls + 1 }

/-- Indices of `'.'` characters in ascending order. -/
def dotIndices (s : List Char) : List Nat :=
  (List.range s.length).filter (fun i => s.getD i ' ' = '.')

/-- Index of the last `'/'`, if any. -/
def lastSlash (s : List Char) : Option Nat :=
  ((List.range s.length).filter (fun i => s.getD i ' ' = '/')).getLast?

/-- Embeds `trimPkg` (src/fun.go lines 273-293): drop everything up to the
last `'/'`; then scanning from the end, return the suffix after the second
dot found (i.e. after the second-to-last dot), or after the single dot if
only one exists, or the whole string if none. -/
def trimPkg (s : String) : String :=
  let cs := s.data
  let cs :=
    match lastSlash cs with
    | some i => cs.drop (i + 1)
    | none => cs
  match (dotIndices cs).reverse with
  | [] => String.mk cs
  | [d] => String.mk (cs.drop (d + 1))
  | _ :: d2 :: _ => String.mk (cs.drop (d2 + 1))

/-- Placeholder func stored in an invalid builder; never invoked because
every operation checks `valid` first. -/
def dummyFunc : GoFunc := { outTypes := [], call := fun _ => CallResult.ret [] }

/-- Embeds `test` (src/fun.go lines 305-333): nil or non-func targets mark
the builder invalid and signal the sink once; otherwise the `errors` flag is
computed from the declared return list and the diagnostic name is derived
with `trimPkg`. -/
def test (fv : FunValue) : FunTest :=
  match fv with
  | FunValue.nilVal =>
      { failCount := 1, valid := false, errors := false, name := "", i := 0,
        fn := dummyFunc, calls := 0 }
  | FunValue.nonFunc _ =>
      { failCount := 1, valid := false, errors := false, name := "", i := 0,
        fn := dummyFunc, calls := 0 }
  | FunValue.func f nm =>
      let numOut := f.outTypes.length
      { failCount := 0, valid := true,
        errors := decide (0 < numOut)
          && isError (f.outTypes.getLastD { name := "", implementsError := false }),
        name := trimPkg nm, i := 0, fn := f, calls := 0 }

/-- Embeds `In` (src/fun.go lines 338-341): increments the case counter and
returns a `Case` holding the bound arguments. -/
def FunTest.In (ft : FunTest) (args : List Val) : FunTest × Case :=
  ({ ft with i := ft.i + 1 }, { args := args })

/-- The element-wise comparison tail of `Out` (src/fun.go lines 382-394):
length mismatch or any `reflect.DeepEqual` mismatch fails. -/
def outCmp (ft : FunTest) (realResults results : List Val) : FunTest :=
  if realResults.length ≠ results.length then ft.fail
  else if (realResults.zip results).any (fun p => decide (p.1 ≠ p.2)) then ft.fail
  else ft

/-- Embeds `Out` (src/fun.go lines 348-397).  A panic during invocation is
reported only when the recovered payload is non-nil (`r != nil`).  When the
`errors` flag is set and exactly one fewer expected value was supplied, a
non-nil last result fails and a nil last result is dropped before
comparison. -/
def Out (ft : FunTest) (args results : List Val) : FunTest :=
  if ft.valid = false then ft else
  match ft.fn.call args with
  | CallResult.panic r => if r ≠ Val.vnil then ft.bump.fail else ft.bump
  | CallResult.ret realResults =>
      if ft.errors = true ∧ (results.length : Int) = (realResults.length : Int) - 1 then
        if realResults.getLastD Val.vnil ≠ Val.vnil then ft.bump.fail
        else outCmp ft.bump realResults.dropLast results
      else outCmp ft.bump realResults results

/-- The Go type assertion `err, ok := last.(error)`: a non-nil error value
yields itself and `true`; a nil interface or a non-error value yields
`(nil, false)`. -/
def errAssert (v : Val) : Val × Bool :=
  match v with
  | Val.verr s => (Val.verr s, true)
  | _ => (Val.vnil, false)

/-- Embeds `Err` (src/fun.go lines 403-458), the second version: usage
failure when the `errors` flag is unset; panic with non-nil payload fails;
empty result tuple fails; a nil last result succeeds only against an
explicit expected `nil`; a non-nil error succeeds unless an expected value
was supplied and differs by `reflect.DeepEqual`. -/
def Err (ft : FunTest) (args v : List Val) : FunTest :=
  if ft.valid = false then ft else
  if ft.errors = false then ft.fail else
  match ft.fn.call args with
  | CallResult.panic r => if r ≠ Val.vnil then ft.bump.fail else ft.bump
  | CallResult.ret resVals =>
      if resVals.length = 0 then ft.bump.fail
      else if (errAssert (resVals.getLastD Val.vnil)).1 = Val.vnil then
        (if 0 < v.length ∧ v.headD Val.vnil = Val.vnil then ft.bump else ft.bump.fail)
      else if (errAssert (resVals.getLastD Val.vnil)).2 = false then ft.bump.fail
      else if 0 < v.length ∧ v.headD Val.vnil ≠ resVals.getLastD Val.vnil then
        ft.bump.fail
      else ft.bump

/-- Embeds the first version's `Err` (src/fun.go lines 123-163): no `errors`
flag check and no expected value; checks the type assertion before the nil
check. -/
def ErrV1 (ft : FunTest) (args : List Val) : FunTest :=
  if ft.valid = false then ft else
  match ft.fn.call args with
  | CallResult.panic r => if r ≠ Val.vnil then ft.bump.fail else ft.bump
  | CallResult.ret resVals =>
      if resVals.length = 0 then ft.bump.fail
      else if (errAssert (resVals.getLastD Val.vnil)).2 = false then ft.bump.fail
      else if (errAssert (resVals.getLastD Val.vnil)).1 = Val.vnil then ft.bump.fail
      else ft.bump

/-- Embeds `Panic` (src/fun.go lines 463-497): a normal return fails; a
panic succeeds when no expected payload was supplied, and otherwise succeeds
exactly when the payload matches by `reflect.DeepEqual`. -/
def Panic (ft : FunTest) (args v : List Val) : FunTest :=
  if ft.valid = false then ft else
  match ft.fn.call args with
  | CallResult.panic r =>
      if v.length = 0 then ft.bump
      else if v.headD Val.vnil ≠ r then ft.bump.fail
      else ft.bump
  | CallResult.ret _ => ft.bump.fail

/-- The Go `int` type. -/
def tyInt : GoType := { name := "int", implementsError := false }

/-- The Go `error` type. -/
def tyError : GoType := { name := "error", implementsError := true }

/-- The empty-interface type, which does not implement `error`. -/
def tyAny : GoType := { name := "any", implementsError := false }

/-- Accumulator loop of the spec's example target `sumUnder10`: panic on a
negative input, return `(0, error)` once the running sum reaches 10,
otherwise `(sum, nil)`. -/
def sumUnder10Go : Int → List Int → CallResult
  | sum, [] => CallResult.ret [Val.vint sum, Val.vnil]
  | sum, n :: rest =>
      if n < 0 then CallResult.panic (Val.vstr (toString n ++ " is negative"))
      else if 10 ≤ sum + n then
        CallResult.ret [Val.vint 0, Val.verr "sum should be less than 10"]
      else sumUnder10Go (sum + n) rest

/-- Reads an int argument. -/
def asInt (v : Val) : Int :=
  match v with
  | Val.vint n => n
  | _ => 0

/-- The example target `sumUnder10(ns ...int) (int, error)` from the spec's
end-to-end scenario. -/
def sumUnder10 : GoFunc :=
  { outTypes := [tyInt, tyError],
    call := fun args => sumUnder10Go 0 (args.map asInt) }

/-- Example target that panics with a nil payload (`panic(nil)`). -/
def panicNilFunc : GoFunc :=
  { outTypes := [tyInt], call := fun _ => CallResult.panic Val.vnil }

/-- Example target declared to return `interface{}` (not implementing
`error`) whose dynamic result is a non-nil error value. -/
def anyRetErrFunc : GoFunc :=
  { outTypes := [tyAny], call := fun _ => CallResult.ret [Val.verr "x"] }

/-- Example target returning `(3, nil)`. -/
def fErrOk : GoFunc :=
  { outTypes := [tyInt, tyError],
    call := fun _ => CallResult.ret [Val.vint 3, Val.vnil] }

/-- Example target returning `(0, error("boom"))`. -/
def fErrSome : GoFunc :=
  { outTypes := [tyInt, tyError],
    call := fun _ => CallResult.ret [Val.vint 0, Val.verr "boom"] }

/-- Example target that always panics with payload `"p"`. -/
def fPanicStr : GoFunc :=
  { outTypes := [tyInt], call := fun _ => CallResult.panic (Val.vstr "p") }

/-- Example target returning a single int, with no error return. -/
def fNoErr : GoFunc :=
  { outTypes := [tyInt], call := fun _ => CallResult.ret [Val.vint 1] }

end Fun

namespace Fun

theorem outCmp_errors (ft : FunTest) (rr res : List Val) :
    (outCmp ft rr res).errors = ft.errors := by
  unfold outCmp FunTest.fail
  repeat' split
  all_goals rfl

theorem outCmp_valid (ft : FunTest) (rr res : List Val) :
    (outCmp ft rr res).valid = ft.valid := by
  unfold outCmp FunTest.fail
  repeat' split
  all_goals rfl

theorem Out_errors (ft : FunTest) (args results : List Val) :
    (Out ft args results).errors = ft.errors := by
  unfold Out outCmp FunTest.fail FunTest.bump
  repeat' split
  all_goals rfl

theorem Err_errors (ft : FunTest) (args v : List Val) :
    (Err ft args v).errors = ft.errors := by
  unfold Err FunTest.fail FunTest.bump
  repeat' split
  all_goals rfl

theorem Panic_errors (ft : FunTest) (args v : List Val) :
    (Panic ft args v).errors = ft.errors := by
  unfold Panic FunTest.fail FunTest.bump
  repeat' split
  all_goals rfl

/-- C5: an invalid builder (nil or non-func target) signals the sink exactly
once at construction, and every subsequent In/Out/Err/Panic returns without
invoking any target (the `calls` counter is unchanged) and without
signalling the sink again (`Out`, `Err` and `Panic` return the builder
unchanged, and `In` changes only the case counter). -/
theorem C5_invalid_builder (w : Val) (fv : FunValue)
    (h : fv = FunValue.nilVal ∨ fv = FunValue.nonFunc w) :
    (test fv).failCount = 1 ∧ (test fv).valid = false
    ∧ ∀ ft : FunTest, ft.valid = false → ∀ args results v : List Val,
        ((ft.In args).1.failCount = ft.failCount ∧ (ft.In args).1.calls = ft.calls)
        ∧ Out ft args results = ft ∧ Err ft args v = ft ∧ Panic ft args v = ft := by
  have hrest : ∀ ft : FunTest, ft.valid = false → ∀ args results v : List Val,
      ((ft.In args).1.failCount = ft.failCount ∧ (ft.In args).1.calls = ft.calls)
      ∧ Out ft args results = ft ∧ Err ft args v = ft ∧ Panic ft args v = ft := by
    intro ft hft args results v
    refine ⟨⟨rfl, rfl⟩, ?_, ?_, ?_⟩ <;> simp [Out, Err, Panic, hft]
  obtain rfl | rfl := h
  · exact ⟨rfl, rfl, hrest⟩
  · exact ⟨rfl, rfl, hrest⟩

/-- C5 witness: instantiated at the nil target and a concrete invalid
builder. -/
theorem C5_invalid_builder_witness :
    (test FunValue.nilVal).failCount = 1 ∧ (test FunValue.nilVal).valid = false
    ∧ ∀ ft : FunTest, ft.valid = false → ∀ args results v : List Val,
        ((ft.In args).1.failCount = ft.failCount ∧ (ft.In args).1.calls = ft.calls)
        ∧ Out ft args results = ft ∧ Err ft args v = ft ∧ Panic ft args v = ft :=
  C5_invalid_builder Val.vnil FunValue.nilVal (Or.inl rfl)

/-- C7: calling `Err` on a valid builder whose target does not declare a
trailing error-typed return reports exactly one usage failure to the sink
and never invokes the target, for every argument list and expected list. -/
theorem C7_err_without_error_return (ft : FunTest) (args v : List Val)
    (hv : ft.valid = true) (he : ft.errors = false) :
    (Err ft args v).failCount = ft.failCount + 1 ∧ (Err ft args v).calls = ft.calls := by
  rw [Err]
  simp [hv, he, FunTest.fail]

/-- C7 witness: a builder over a target returning only an int. -/
theorem C7_err_without_error_return_witness :
    (Err (test (FunValue.func fNoErr "main.noErr")) [] []).failCount
      = (test (FunValue.func fNoErr "main.noErr")).failCount + 1
    ∧ (Err (test (FunValue.func fNoErr "main.noErr")) [] []).calls
      = (test (FunValue.func fNoErr "main.noErr")).calls :=
  C7_err_without_error_return _ [] [] rfl rfl

/-- C8: for a builder constructed from a func target, `errors` is true
exactly when the declared return list is non-empty and its final type
implements the error interface; and no In/Out/Err/Panic operation ever
changes the flag. -/
theorem C8_errors_flag_invariant :
    (∀ (f : GoFunc) (nm : String),
      (test (FunValue.func f nm)).errors = true ↔
        f.outTypes ≠ [] ∧
          isError (f.outTypes.getLastD { name := "", implementsError := false }) = true)
    ∧ ∀ (ft : FunTest) (args results v : List Val),
        ((ft.In args).1).errors = ft.errors
        ∧ (Out ft args results).errors = ft.errors
        ∧ (Err ft args v).errors = ft.errors
        ∧ (Panic ft args v).errors = ft.errors := by
  constructor
  · intro f nm
    simp [test, isError, List.length_pos]
  · intro ft args results v
    exact ⟨rfl, Out_errors ft args results, Err_errors ft args v, Panic_errors ft args v⟩

/-- C10: `Err` and `Panic` inspect only the first of their variadic expected
values; any extra values are ignored, leaving the resulting state
identical. -/
theorem C10_variadic_extras_ignored (ft : FunTest) (args : List Val) (e : Val)
    (xs : List Val) :
    Err ft args (e :: xs) = Err ft args [e]
    ∧ Panic ft args (e :: xs) = Panic ft args [e] := by
  constructor
  · rw [Err, Err]
    simp
  · rw [Panic, Panic]
    simp

/-- C6: the name-trimming utility maps "pkg.Func" to "Func",
"pkg.Type.Func" to "Type.Func", "a/b/pkg.Func" to "Func",
"a/b/pkg.(*Type).Func" to "(*Type).Func", and "" to "". -/
theorem C6_trimPkg :
    trimPkg "pkg.Func" = "Func"
    ∧ trimPkg "pkg.Type.Func" = "Type.Func"
    ∧ trimPkg "a/b/pkg.Func" = "Func"
    ∧ trimPkg "a/b/pkg.(*Type).Func" = "(*Type).Func"
    ∧ trimPkg "" = "" := by
  refine ⟨?_, ?_, ?_, ?_, ?_⟩ <;> decide

theorem Out_ret (ft : FunTest) (args results rvals : List Val)
    (hv : ft.valid = true) (hc : ft.fn.call args = CallResult.ret rvals) :
    Out ft args results =
      if ft.errors = true ∧ (results.length : Int) = (rvals.length : Int) - 1 then
        if rvals.getLastD Val.vnil ≠ Val.vnil then ft.bump.fail
        else outCmp ft.bump rvals.dropLast results
      else outCmp ft.bump rvals results := by
  unfold Out
  rw [hc, hv]
  simp

theorem Out_panic (ft : FunTest) (args results : List Val) (r : Val)
    (hv : ft.valid = true) (hc : ft.fn.call args = CallResult.panic r) :
    Out ft args results = if r ≠ Val.vnil then ft.bump.fail else ft.bump := by
  unfold Out
  rw [hc, hv]
  simp

theorem Err_ret (ft : FunTest) (args v resVals : List Val)
    (hv : ft.valid = true) (he : ft.errors = true)
    (hc : ft.fn.call args = CallResult.ret resVals) :
    Err ft args v =
      if resVals.length = 0 then ft.bump.fail
      else if (errAssert (resVals.getLastD Val.vnil)).1 = Val.vnil then
        (if 0 < v.length ∧ v.headD Val.vnil = Val.vnil then ft.bump else ft.bump.fail)
      else if (errAssert (resVals.getLastD Val.vnil)).2 = false then ft.bump.fail
      else if 0 < v.length ∧ v.headD Val.vnil ≠ resVals.getLastD Val.vnil then
        ft.bump.fail
      else ft.bump := by
  unfold Err
  rw [hc, hv, he]
  simp

theorem Err_panic (ft : FunTest) (args v : List Val) (r : Val)
    (hv : ft.valid = true) (he : ft.errors = true)
    (hc : ft.fn.call args = CallResult.panic r) :
    Err ft args v = if r ≠ Val.vnil then ft.bump.fail else ft.bump := by
  unfold Err
  rw [hc, hv, he]
  simp

theorem ErrV1_ret (ft : FunTest) (args resVals : List Val)
    (hv : ft.valid = true) (hc : ft.fn.call args = CallResult.ret resVals) :
    ErrV1 ft args =
      if resVals.length = 0 then ft.bump.fail
      else if (errAssert (resVals.getLastD Val.vnil)).2 = false then ft.bump.fail
      else if (errAssert (resVals.getLastD Val.vnil)).1 = Val.vnil then ft.bump.fail
      else ft.bump := by
  unfold ErrV1
  rw [hc, hv]
  simp

theorem ErrV1_panic (ft : FunTest) (args : List Val) (r : Val)
    (hv : ft.valid = true) (hc : ft.fn.call args = CallResult.panic r) :
    ErrV1 ft args = if r ≠ Val.vnil then ft.bump.fail else ft.bump := by
  unfold ErrV1
  rw [hc, hv]
  simp

theorem Panic_panic (ft : FunTest) (args v : List Val) (r : Val)
    (hv : ft.valid = true) (hc : ft.fn.call args = CallResult.panic r) :
    Panic ft args v =
      if v.length = 0 then ft.bump
      else if v.headD Val.vnil ≠ r then ft.bump.fail
      else ft.bump := by
  unfold Panic
  rw [hc, hv]
  simp

theorem Panic_ret (ft : FunTest) (args v rvals : List Val)
    (hv : ft.valid = true) (hc : ft.fn.call args = CallResult.ret rvals) :
    Panic ft args v = ft.bump.fail := by
  unfold Panic
  rw [hc, hv]
  simp

theorem outCmp_append_nil (ft : FunTest) (rs results : List Val)
    (h : rs.length = results.length) :
    outCmp ft (rs ++ [Val.vnil]) (results ++ [Val.vnil]) = outCmp ft rs results := by
  unfold outCmp
  rw [List.zip_append h]
  have hA : ((rs.zip results ++ [Val.vnil].zip [Val.vnil]).any fun p => decide (p.1 ≠ p.2))
      = ((rs.zip results).any fun p => decide (p.1 ≠ p.2)) := by
    simp [List.any_append]
  rw [hA]
  simp [h]

/-- C1: for a builder whose `errors` flag is set, calling `Out` with exactly
one fewer expected value than the invocation's actual result count fails
when the last actual result is non-nil, drops a nil last result before the
element-wise comparison, and succeeds exactly when asserting the same
expected values with an explicit trailing nil succeeds. -/
theorem C1_out_error_elision (ft : FunTest) (args results rs : List Val) (lastv : Val)
    (hv : ft.valid = true) (he : ft.errors = true)
    (hc : ft.fn.call args = CallResult.ret (rs ++ [lastv]))
    (hlen : results.length = rs.length) :
    (lastv ≠ Val.vnil → (Out ft args results).failCount = ft.failCount + 1)
    ∧ (lastv = Val.vnil → Out ft args results = outCmp ft.bump rs results)
    ∧ ((Out ft args results).failCount = ft.failCount ↔
        (Out ft args (results ++ [Val.vnil])).failCount = ft.failCount) := by
  have hOut1 : Out ft args results =
      if lastv ≠ Val.vnil then ft.bump.fail else outCmp ft.bump rs results := by
    rw [Out_ret ft args results (rs ++ [lastv]) hv hc, if_pos, List.getLastD_concat,
      List.dropLast_concat]
    exact ⟨he, by simp [hlen]⟩
  have hOut2 : Out ft args (results ++ [Val.vnil]) =
      outCmp ft.bump (rs ++ [lastv]) (results ++ [Val.vnil]) := by
    rw [Out_ret ft args (results ++ [Val.vnil]) (rs ++ [lastv]) hv hc, if_neg]
    rintro ⟨-, h2⟩
    simp only [List.length_append, List.length_singleton, hlen] at h2
    push_cast at h2
    omega
  by_cases hl : lastv = Val.vnil
  · subst hl
    have hb : Out ft args results = outCmp ft.bump rs results := by
      rw [hOut1]
      simp
    refine ⟨fun h => absurd rfl h, fun _ => hb, ?_⟩
    rw [hb, hOut2, outCmp_append_nil ft.bump rs results hlen.symm]
  · have ha : (Out ft args results).failCount = ft.failCount + 1 := by
      rw [hOut1, if_pos hl]
      rfl
    have hrhs : outCmp ft.bump (rs ++ [lastv]) (results ++ [Val.vnil]) = ft.bump.fail := by
      unfold outCmp
      rw [List.zip_append hlen.symm]
      simp [hlen, List.any_append, hl]
    refine ⟨fun _ => ha, fun h => absurd h hl, ?_⟩
    rw [ha, hOut2, hrhs]
    simp [FunTest.bump, FunTest.fail]

/-- C1 witness: the target returning `(3, nil)`; asserting `Out(3)` elides
the nil error, and succeeds exactly when `Out(3, nil)` succeeds. -/
theorem C1_out_error_elision_witness :
    Out (test (FunValue.func fErrOk "pkg.fErrOk")) [] [Val.vint 3]
      = outCmp (test (FunValue.func fErrOk "pkg.fErrOk")).bump [Val.vint 3] [Val.vint 3]
    ∧ ((Out (test (FunValue.func fErrOk "pkg.fErrOk")) [] [Val.vint 3]).failCount
        = (test (FunValue.func fErrOk "pkg.fErrOk")).failCount ↔
       (Out (test (FunValue.func fErrOk "pkg.fErrOk")) []
          ([Val.vint 3] ++ [Val.vnil])).failCount
        = (test (FunValue.func fErrOk "pkg.fErrOk")).failCount) := by
  have h := C1_out_error_elision (test (FunValue.func fErrOk "pkg.fErrOk")) []
    [Val.vint 3] [Val.vint 3] Val.vnil rfl rfl rfl rfl
  exact ⟨h.2.1 rfl, h.2.2⟩

/-- C2: for a target with a trailing error-typed return, when the
invocation's last result is a non-nil error, `Err()` succeeds, `Err(nil)`
fails, and `Err(e)` succeeds exactly when `e` is deeply equal to the actual
error; when the last result is nil, `Err(nil)` succeeds while `Err()` and
`Err(nonNil)` fail. -/
theorem C2_err_assertion (ft : FunTest) (args rs : List Val) (lastv e : Val)
    (hv : ft.valid = true) (he : ft.errors = true)
    (hc : ft.fn.call args = CallResult.ret (rs ++ [lastv])) :
    (∀ s : String, lastv = Val.verr s →
        (Err ft args []).failCount = ft.failCount
        ∧ (Err ft args [Val.vnil]).failCount = ft.failCount + 1
        ∧ ((Err ft args [e]).failCount = ft.failCount ↔ e = lastv)
        ∧ (e ≠ lastv → (Err ft args [e]).failCount = ft.failCount + 1))
    ∧ (lastv = Val.vnil →
        (Err ft args [Val.vnil]).failCount = ft.failCount
        ∧ (Err ft args []).failCount = ft.failCount + 1
        ∧ (e ≠ Val.vnil → (Err ft args [e]).failCount = ft.failCount + 1)) := by
  have hred : ∀ v : List Val, Err ft args v =
      if (rs ++ [lastv]).length = 0 then ft.bump.fail
      else if (errAssert lastv).1 = Val.vnil then
        (if 0 < v.length ∧ v.headD Val.vnil = Val.vnil then ft.bump else ft.bump.fail)
      else if (errAssert lastv).2 = false then ft.bump.fail
      else if 0 < v.length ∧ v.headD Val.vnil ≠ lastv then ft.bump.fail
      else ft.bump := by
    intro v
    rw [Err_ret ft args v (rs ++ [lastv]) hv he hc, List.getLastD_concat]
  constructor
  · intro s hs
    subst hs
    refine ⟨?_, ?_, ?_, ?_⟩
    · rw [hred]
      simp [errAssert, FunTest.bump]
    · rw [hred]
      simp [errAssert, FunTest.bump, FunTest.fail]
    · rw [hred]
      by_cases hne : e = Val.verr s
      · subst hne
        simp [errAssert, FunTest.bump]
      · simp [errAssert, FunTest.bump, FunTest.fail, hne]
    · intro hne
      rw [hred]
      simp [errAssert, FunTest.bump, FunTest.fail, hne]
  · intro hl
    subst hl
    refine ⟨?_, ?_, ?_⟩
    · rw [hred]
      simp [errAssert, FunTest.bump]
    · rw [hred]
      simp [errAssert, FunTest.bump, FunTest.fail]
    · intro hne
      rw [hred]
      simp [errAssert, FunTest.bump, FunTest.fail, hne]

/-- C2 witness: concrete targets returning `(0, error("boom"))` and
`(3, nil)`. -/
theorem C2_err_assertion_witness :
    ((Err (test (FunValue.func fErrSome "main.fe")) [] []).failCount
        = (test (FunValue.func fErrSome "main.fe")).failCount
      ∧ (Err (test (FunValue.func fErrSome "main.fe")) [] [Val.vnil]).failCount
        = (test (FunValue.func fErrSome "main.fe")).failCount + 1
      ∧ ((Err (test (FunValue.func fErrSome "main.fe")) []
            [Val.verr "other"]).failCount
          = (test (FunValue.func fErrSome "main.fe")).failCount ↔
          Val.verr "other" = Val.verr "boom"))
    ∧ ((Err (test (FunValue.func fErrOk "pkg.fErrOk")) [] [Val.vnil]).failCount
        = (test (FunValue.func fErrOk "pkg.fErrOk")).failCount
      ∧ (Err (test (FunValue.func fErrOk "pkg.fErrOk")) [] []).failCount
        = (test (FunValue.func fErrOk "pkg.fErrOk")).failCount + 1) := by
  have h1 := C2_err_assertion (test (FunValue.func fErrSome "main.fe")) [] [Val.vint 0]
    (Val.verr "boom") (Val.verr "other") rfl rfl rfl
  have h2 := C2_err_assertion (test (FunValue.func fErrOk "pkg.fErrOk")) [] [Val.vint 3]
    Val.vnil (Val.verr "other") rfl rfl rfl
  exact ⟨⟨(h1.1 "boom" rfl).1, (h1.1 "boom" rfl).2.1, (h1.1 "boom" rfl).2.2.1⟩,
    (h2.2 rfl).1, (h2.2 rfl).2.1⟩

/-- C3: if the invocation panics with payload P, `Panic()` and `Panic(P)`
succeed while `Panic(Q)` fails for Q not deeply equal to P; if the
invocation returns normally, `Panic` fails whether or not an expected
payload was supplied. -/
theorem C3_panic_assertion (ft : FunTest) (args : List Val) (p q : Val)
    (hv : ft.valid = true) :
    (ft.fn.call args = CallResult.panic p →
      (Panic ft args []).failCount = ft.failCount
      ∧ (Panic ft args [p]).failCount = ft.failCount
      ∧ (q ≠ p → (Panic ft args [q]).failCount = ft.failCount + 1))
    ∧ (∀ rvals : List Val, ft.fn.call args = CallResult.ret rvals →
      (Panic ft args []).failCount = ft.failCount + 1
      ∧ (Panic ft args [q]).failCount = ft.failCount + 1) := by
  constructor
  · intro hc
    rw [Panic_panic ft args [] p hv hc, Panic_panic ft args [p] p hv hc,
      Panic_panic ft args [q] p hv hc]
    refine ⟨by simp [FunTest.bump], by simp [FunTest.bump], fun hq => ?_⟩
    simp [FunTest.bump, FunTest.fail, hq]
  · intro rvals hc
    rw [Panic_ret ft args [] rvals hv hc, Panic_ret ft args [q] rvals hv hc]
    exact ⟨rfl, rfl⟩

/-- C3 witness: a target panicking with payload `"p"` (matching and
mismatching expectations), and a normally returning target. -/
theorem C3_panic_assertion_witness :
    (Panic (test (FunValue.func fPanicStr "main.fp")) [] []).failCount
      = (test (FunValue.func fPanicStr "main.fp")).failCount
    ∧ (Panic (test (FunValue.func fPanicStr "main.fp")) [] [Val.vstr "p"]).failCount
      = (test (FunValue.func fPanicStr "main.fp")).failCount
    ∧ (Panic (test (FunValue.func fPanicStr "main.fp")) [] [Val.vint 0]).failCount
      = (test (FunValue.func fPanicStr "main.fp")).failCount + 1
    ∧ (Panic (test (FunValue.func fNoErr "main.noErr")) [] []).failCount
      = (test (FunValue.func fNoErr "main.noErr")).failCount + 1 := by
  have h1 := C3_panic_assertion (test (FunValue.func fPanicStr "main.fp")) []
    (Val.vstr "p") (Val.vint 0) rfl
  have h2 := C3_panic_assertion (test (FunValue.func fNoErr "main.noErr")) []
    (Val.vstr "p") (Val.vint 0) rfl
  exact ⟨(h1.1 rfl).1, (h1.1 rfl).2.1, (h1.1 rfl).2.2 (by decide),
    (h2.2 [Val.vint 1] rfl).1⟩

/-- C4 counterexample: a target that panics with a nil payload.  The panic
is intercepted by `recover`, but because the recovered value is nil the
`r != nil` guard skips the report: `Out` signals no failure, contradicting
the claim that every panic payload is reported as a failure. -/
theorem C4_nil_panic_not_reported :
    panicNilFunc.call [] = CallResult.panic Val.vnil
    ∧ (Out (test (FunValue.func panicNilFunc "main.pn")) [] []).calls = 1
    ∧ (Out (test (FunValue.func panicNilFunc "main.pn")) [] []).failCount
      = (test (FunValue.func panicNilFunc "main.pn")).failCount := ⟨rfl, rfl, rfl⟩

/-- C4 amended: any panic with a non-nil payload raised while `Out` invokes
the target of a valid builder is caught and reported as exactly one failure;
in particular for the `sumUnder10` example, `In(-1).Out(-1)` fails. -/
theorem C4_panic_reported_amended (ft : FunTest) (args results : List Val) (p : Val)
    (hv : ft.valid = true) (hc : ft.fn.call args = CallResult.panic p)
    (hp : p ≠ Val.vnil) :
    (Out ft args results).failCount = ft.failCount + 1
    ∧ (Out (test (FunValue.func sumUnder10 "main.sumUnder10")) [Val.vint (-1)]
        [Val.vint (-1)]).failCount
      = (test (FunValue.func sumUnder10 "main.sumUnder10")).failCount + 1 := by
  constructor
  · rw [Out_panic ft args results p hv hc, if_pos hp]
    rfl
  · rw [Out_panic (test (FunValue.func sumUnder10 "main.sumUnder10")) [Val.vint (-1)]
      [Val.vint (-1)] (Val.vstr "-1 is negative") rfl rfl]
    rfl

/-- C4 amended witness: a target panicking with the non-nil payload `"p"`. -/
theorem C4_panic_reported_amended_witness :
    (Out (test (FunValue.func fPanicStr "main.fp")) [] []).failCount
      = (test (FunValue.func fPanicStr "main.fp")).failCount + 1
    ∧ (Out (test (FunValue.func sumUnder10 "main.sumUnder10")) [Val.vint (-1)]
        [Val.vint (-1)]).failCount
      = (test (FunValue.func sumUnder10 "main.sumUnder10")).failCount + 1 :=
  C4_panic_reported_amended (test (FunValue.func fPanicStr "main.fp")) [] []
    (Val.vstr "p") rfl rfl (by decide)

/-- C9 counterexample: a valid target declared to return a non-error type
whose dynamic value is a non-nil error.  The earlier `Err` invokes the
target and succeeds, while the later zero-argument `Err` reports a usage
failure without invoking: the two versions give different pass/fail
signals. -/
theorem C9_err_versions_differ :
    (test (FunValue.func anyRetErrFunc "main.g")).valid = true
    ∧ (ErrV1 (test (FunValue.func anyRetErrFunc "main.g")) []).failCount = 0
    ∧ (ErrV1 (test (FunValue.func anyRetErrFunc "main.g")) []).calls = 1
    ∧ (Err (test (FunValue.func anyRetErrFunc "main.g")) [] []).failCount = 1
    ∧ (Err (test (FunValue.func anyRetErrFunc "main.g")) [] []).calls = 0 :=
  ⟨rfl, rfl, rfl, rfl, rfl⟩

/-- C9 amended: restricted to builders whose `errors` flag is set (the last
declared return implements the error interface), the zero-argument form of
the later `Err` is extensionally equal to the earlier `Err` as a state
transformer: same sink signals and same target invocations. -/
theorem C9_err_equiv_amended (ft : FunTest) (args : List Val)
    (he : ft.errors = true) : Err ft args [] = ErrV1 ft args := by
  cases hvv : ft.valid with
  | false =>
      unfold Err ErrV1
      rw [hvv]
      simp
  | true =>
      cases hcall : ft.fn.call args with
      | panic r =>
          rw [Err_panic ft args [] r hvv he hcall, ErrV1_panic ft args r hvv hcall]
      | ret resVals =>
          rw [Err_ret ft args [] resVals hvv he hcall, ErrV1_ret ft args resVals hvv hcall]
          rcases resVals.getLastD Val.vnil with _ | n | s | s <;> simp [errAssert]

/-- C9 amended witness: a builder over a target with a trailing error
return. -/
theorem C9_err_equiv_amended_witness :
    Err (test (FunValue.func fErrSome "main.fe")) [] []
      = ErrV1 (test (FunValue.func fErrSome "main.fe")) [] :=
  C9_err_equiv_amended (test (FunValue.func fErrSome "main.fe")) [] rfl

end Fun
